import Mathlib

/-
  Shallow embedding of `scripts/validate_openapi.py` (OpenAPI 3.0 validator).

  The document model `Val` mirrors the value tree produced by `json.load` /
  `yaml.safe_load`; mapping keys are modelled as strings and numeric scalars as
  integers (the validator never computes with numbers, it only needs a
  non-string scalar to exist).  Every Python operation that can raise on a
  dynamically-typed value (`key in x`, `x[key]`, `x.get(...)`, `x.items()`,
  `x.startswith(...)`) is modelled as an `Option`-valued function where `none`
  is a raised exception; each validator therefore returns `Option (List String)`
  and `none` models the run aborting with a traceback.
-/

namespace Openapi

/-- A parsed JSON/YAML document value (the Document Model). -/
inductive Val where
  | str (s : String)
  | num (n : Int)
  | bool (b : Bool)
  | null
  | arr (xs : List Val)
  | obj (fields : List (String × Val))

/-- Substring test, Python `needle in hay` on strings. -/
def substr (needle hay : String) : Bool := decide (needle.data <:+: hay.data)

/-- Python `s.startswith(pre)`. -/
def pyStartsWith (s pre : String) : Bool := decide (pre.data <+: s.data)

/-- Python `s.endswith(suf)`. -/
def pyEndsWith (s suf : String) : Bool := decide (suf.data <:+ s.data)

/-- Python `s.lower()` (ASCII, which is all the validator compares). -/
def lowerStr (s : String) : String := ⟨s.data.map Char.toLower⟩

/-- Python `s.upper()` (ASCII). -/
def upperStr (s : String) : String := ⟨s.data.map Char.toUpper⟩

/-- Association-list lookup on a dict's fields (keys are unique in a dict). -/
def dlookup : List (String × Val) → String → Option Val
  | [], _ => none
  | (k, v) :: rest, key => if k == key then some v else dlookup rest key

/-- Python `key in x`: key test on dicts, substring test on strings,
membership on lists; `TypeError` (= `none`) on other values. -/
def pyIn (key : String) : Val → Option Bool
  | .obj fs => some ((fs.map Prod.fst).contains key)
  | .str s => some (substr key s)
  | .arr xs => some (xs.any fun v => match v with | .str s => s == key | _ => false)
  | _ => none

/-- Python `x[key]` for a string key: dict lookup; `KeyError`/`TypeError`
(= `none`) otherwise. -/
def pyItem (v : Val) (key : String) : Option Val :=
  match v with
  | .obj fs => dlookup fs key
  | _ => none

/-- Python `x.get(key, dflt)`: only dicts have `.get` (`AttributeError`
otherwise). -/
def pyGet (v : Val) (key : String) (dflt : Val) : Option Val :=
  match v with
  | .obj fs => some ((dlookup fs key).getD dflt)
  | _ => none

/-- Python `x.items()`: only dicts have `.items` (`AttributeError` otherwise). -/
def pyItems (v : Val) : Option (List (String × Val)) :=
  match v with
  | .obj fs => some fs
  | _ => none

/-- Python truthiness of a value (total). -/
def pyTruthy : Val → Bool
  | .str s => !s.data.isEmpty
  | .num n => n != 0
  | .bool b => b
  | .null => false
  | .arr xs => !xs.isEmpty
  | .obj fs => !fs.isEmpty

/-- Python `v == "s"` for a literal string right-hand side (never raises). -/
def isStrEq (v : Val) (s : String) : Bool :=
  match v with
  | .str t => t == s
  | _ => false

/-- Python `[f(a) for a in l]` where each `f a` may raise: first exception
aborts the whole loop. -/
def mapOpt (f : α → Option β) : List α → Option (List β)
  | [] => some []
  | a :: l =>
    match f a with
    | none => none
    | some b =>
      match mapOpt f l with
      | none => none
      | some bs => some (b :: bs)

/-- Python `any(f(a) for a in l)`: short-circuits on the first `True`. -/
def anyOpt (f : α → Option Bool) : List α → Option Bool
  | [] => some false
  | a :: l =>
    match f a with
    | none => none
    | some b => if b then some true else anyOpt f l

/-! ### `validate_structure` (validate_openapi.py lines 30-54) -/

/-- Lines 35-38: the `openapi` version field. -/
def checkOpenapi (spec : Val) : Option (List String) :=
  match pyIn "openapi" spec with
  | none => none
  | some hasOpenapi =>
    if !hasOpenapi then some ["Missing required field: 'openapi'"]
    else
      match pyItem spec "openapi" with
      | none => none
      | some (.str s) =>
        if pyStartsWith s "3.0" then some []
        else some ["Unsupported OpenAPI version: " ++ s]
      | some _ => none

/-- Lines 40-47: the `info` object. -/
def checkInfo (spec : Val) : Option (List String) :=
  match pyIn "info" spec with
  | none => none
  | some hasInfo =>
    if !hasInfo then some ["Missing required field: 'info'"]
    else
      match pyItem spec "info" with
      | none => none
      | some info =>
        match pyIn "title" info with
        | none => none
        | some hasTitle =>
          match pyIn "version" info with
          | none => none
          | some hasVersion =>
            some ((if !hasTitle then ["Missing required field: 'info.title'"] else []) ++
                  (if !hasVersion then ["Missing required field: 'info.version'"] else []))

/-- Lines 49-52: the `paths` field must be present and non-empty. -/
def checkPathsField (spec : Val) : Option (List String) :=
  match pyIn "paths" spec with
  | none => none
  | some hasPaths =>
    if !hasPaths then some ["Missing required field: 'paths'"]
    else
      match pyItem spec "paths" with
      | none => none
      | some p =>
        some (if !(pyTruthy p) then
                ["'paths' object is empty - at least one path is required"]
              else [])

/-- Function `validate_structure` (lines 30-54). -/
def validate_structure (spec : Val) : Option (List String) :=
  match checkOpenapi spec with
  | none => none
  | some e1 =>
    match checkInfo spec with
    | none => none
    | some e2 =>
      match checkPathsField spec with
      | none => none
      | some e3 => some (e1 ++ e2 ++ e3)

/-! ### `validate_paths` (lines 57-93) -/

/-- Line 69: the recognized HTTP methods. -/
def operations : List String :=
  ["get", "post", "put", "patch", "delete", "options", "head"]

/-- Lines 79-83: the `responses` check of one operation (its contribution to
`errors`). -/
def opRespErrors (method path : String) (operation : Val) :
    Option (List String) :=
  match pyIn "responses" operation with
  | none => none
  | some hasResponses =>
    if !hasResponses then
      some [upperStr method ++ " " ++ path ++ ": Missing 'responses'"]
    else
      match pyItem operation "responses" with
      | none => none
      | some r =>
        some (if !(pyTruthy r) then
                [upperStr method ++ " " ++ path ++ ": 'responses' is empty"]
              else [])

/-- Lines 85-91: the summary/description and operationId checks of one
operation (its contribution to `warnings`). -/
def opDocWarnings (method path : String) (operation : Val) :
    Option (List String) :=
  match pyIn "summary" operation, pyIn "description" operation with
  | some hasSummary, some hasDescription =>
    let w1 := if !hasSummary && !hasDescription then
        [upperStr method ++ " " ++ path ++ ": Missing 'summary' or 'description'"]
      else []
    match pyIn "operationId" operation with
    | none => none
    | some hasOpId =>
      some (w1 ++ (if !hasOpId then
          [upperStr method ++ " " ++ path ++ ": Missing 'operationId' (recommended)"]
        else []))
  | _, _ => none

/-- Lines 77-91: per-operation checks.  Returns (errors, warnings) this
operation contributes. -/
def checkOperation (method path : String) (operation : Val) :
    Option (List String × List String) :=
  match opRespErrors method path operation with
  | none => none
  | some errs =>
    match opDocWarnings method path operation with
    | none => none
    | some ws => some (errs, ws)

/-- Lines 63-91: checks for one `(path, path_item)` entry of `paths`.
Returns the (errors, warnings) contributed by this path. -/
def checkPathItem (path : String) (pitem : Val) :
    Option (List String × List String) :=
  let e0 := if !(pyStartsWith path "/") then
      ["Path '" ++ path ++ "' must start with '/'"]
    else []
  match anyOpt (fun op => pyIn op pitem) operations with
  | none => none
  | some hasOperation =>
    let w0 := if !hasOperation then
        ["Path '" ++ path ++ "' has no operations defined"]
      else []
    match mapOpt (fun method =>
        match pyIn method pitem with
        | none => none
        | some present =>
          if present then
            match pyItem pitem method with
            | none => none
            | some operation => checkOperation method path operation
          else some ([], [])) operations with
    | none => none
    | some results =>
      some (e0 ++ (results.map Prod.fst).flatten, w0 ++ (results.map Prod.snd).flatten)

/-- Function `validate_paths` (lines 57-93): returns `errors + warnings`. -/
def validate_paths (spec : Val) : Option (List String) :=
  match pyGet spec "paths" (.obj []) with
  | none => none
  | some pathsV =>
    match pyItems pathsV with
    | none => none
    | some paths =>
      match mapOpt (fun pv => checkPathItem pv.1 pv.2) paths with
      | none => none
      | some results =>
        some ((results.map Prod.fst).flatten ++ (results.map Prod.snd).flatten)

/-! ### `validate_schemas` (lines 96-118) -/

/-- Lines 104-116: warnings for one named schema. -/
def checkSchema (schemaName : String) (schema : Val) : Option (List String) :=
  match pyIn "type" schema, pyIn "$ref" schema, pyIn "allOf" schema,
        pyIn "oneOf" schema, pyIn "anyOf" schema with
  | some hasType, some hasRef, some hasAllOf, some hasOneOf, some hasAnyOf =>
    let w1 := if !hasType && !hasRef && !hasAllOf && !hasOneOf && !hasAnyOf then
        ["Schema '" ++ schemaName ++ "': Missing 'type' property"]
      else []
    match pyIn "description" schema with
    | none => none
    | some hasDescription =>
      let w2 := if !hasDescription then
          ["Schema '" ++ schemaName ++ "': Missing 'description' (recommended)"]
        else []
      match pyGet schema "type" .null with
      | none => none
      | some tv =>
        match
          (if isStrEq tv "object" then
            match pyIn "properties" schema with
            | none => none
            | some hasProps =>
              some (if !hasProps then
                  ["Schema '" ++ schemaName ++ "': Object type but no 'properties' defined"]
                else [])
          else some []) with
        | none => none
        | some w3 => some (w1 ++ w2 ++ w3)
  | _, _, _, _, _ => none

/-- Function `validate_schemas` (lines 96-118): its `errors` list stays empty, so the
return value is just the concatenated warnings. -/
def validate_schemas (spec : Val) : Option (List String) :=
  match pyGet spec "components" (.obj []) with
  | none => none
  | some components =>
    match pyGet components "schemas" (.obj []) with
    | none => none
    | some schemasV =>
      match pyItems schemasV with
      | none => none
      | some schemas =>
        match mapOpt (fun sv => checkSchema sv.1 sv.2) schemas with
        | none => none
        | some results => some results.flatten

/-! ### `validate_security` (lines 121-151) -/

/-- Lines 134-149: errors for one declared security scheme. -/
def checkScheme (schemeName : String) (scheme : Val) : Option (List String) :=
  match pyIn "type" scheme with
  | none => none
  | some hasType =>
    let e1 := if !hasType then
        ["Security scheme '" ++ schemeName ++ "': Missing 'type'"]
      else []
    match pyGet scheme "type" .null with
    | none => none
    | some schemeType =>
      match
        (if isStrEq schemeType "http" then
          match pyIn "scheme" scheme with
          | none => none
          | some hasScheme =>
            some (if !hasScheme then
                ["Security scheme '" ++ schemeName ++ "': HTTP type requires 'scheme'"]
              else [])
        else if isStrEq schemeType "apiKey" then
          match pyIn "name" scheme with
          | none => none
          | some hasName =>
            match pyIn "in" scheme with
            | none => none
            | some hasIn =>
              some ((if !hasName then
                  ["Security scheme '" ++ schemeName ++ "': apiKey type requires 'name'"]
                else []) ++
                (if !hasIn then
                  ["Security scheme '" ++ schemeName ++ "': apiKey type requires 'in'"]
                else []))
        else if isStrEq schemeType "oauth2" then
          match pyIn "flows" scheme with
          | none => none
          | some hasFlows =>
            some (if !hasFlows then
                ["Security scheme '" ++ schemeName ++ "': oauth2 type requires 'flows'"]
              else [])
        else some []) with
      | none => none
      | some es => some (e1 ++ es)

/-- Function `validate_security` (lines 121-151): returns `errors + warnings`, where
the only possible warning is the document-wide "no security schemes" one. -/
def validate_security (spec : Val) : Option (List String) :=
  match pyGet spec "components" (.obj []) with
  | none => none
  | some components =>
    match pyGet components "securitySchemes" (.obj []) with
    | none => none
    | some schemes =>
      let w0 := if !(pyTruthy schemes) then
          ["No security schemes defined (consider adding authentication)"]
        else []
      match pyItems schemes with
      | none => none
      | some items =>
        match mapOpt (fun sv => checkScheme sv.1 sv.2) items with
        | none => none
        | some results => some (results.flatten ++ w0)

/-! ### `validate_examples` (lines 154-182) -/

/-- Line 160: the methods the examples pass iterates (note: no `options`,
no `head`). -/
def exOperations : List String := ["get", "post", "put", "patch", "delete"]

/-- Lines 169-171 / 178-180: one warning per media-type entry of a content
mapping that has neither `example` nor `examples`. -/
def checkContent (msg : String) (content : Val) : Option (List String) :=
  match pyItems content with
  | none => none
  | some items =>
    match mapOpt (fun mv =>
        match pyIn "example" mv.2, pyIn "examples" mv.2 with
        | some hasEx, some hasExs =>
          some (if !hasEx && !hasExs then [msg] else [])
        | _, _ => none) items with
    | none => none
    | some results => some results.flatten

/-- Lines 163-180: example-coverage warnings for one operation. -/
def checkExOperation (method path : String) (operation : Val) :
    Option (List String) :=
  match pyIn "requestBody" operation with
  | none => none
  | some hasReqBody =>
    match
      (if hasReqBody then
        match pyItem operation "requestBody" with
        | none => none
        | some requestBody =>
          match pyGet requestBody "content" (.obj []) with
          | none => none
          | some content =>
            checkContent (upperStr method ++ " " ++ path ++ ": Request body missing example") content
      else some []) with
    | none => none
    | some w1 =>
      match pyGet operation "responses" (.obj []) with
      | none => none
      | some responsesV =>
        match pyItems responsesV with
        | none => none
        | some resps =>
          match mapOpt (fun rv =>
              if pyStartsWith rv.1 "2" then
                match pyGet rv.2 "content" (.obj []) with
                | none => none
                | some content =>
                  checkContent (upperStr method ++ " " ++ path ++ ": Response " ++ rv.1 ++ " missing example") content
              else some []) resps with
          | none => none
          | some w2 => some (w1 ++ w2.flatten)

/-- Function `validate_examples` (lines 154-182). -/
def validate_examples (spec : Val) : Option (List String) :=
  match pyGet spec "paths" (.obj []) with
  | none => none
  | some pathsV =>
    match pyItems pathsV with
    | none => none
    | some paths =>
      match mapOpt (fun pv =>
          match mapOpt (fun method =>
              match pyIn method pv.2 with
              | none => none
              | some present =>
                if present then
                  match pyItem pv.2 method with
                  | none => none
                  | some operation => checkExOperation method pv.1 operation
                else some []) exOperations with
          | none => none
          | some rs => some rs.flatten) paths with
      | none => none
      | some results => some results.flatten

/-! ### `validate_best_practices` (lines 185-229) -/

/-- Python `re.findall(r'\x7b([^\x7d]+)\x7d', path)` as a left-to-right scan:
`none` state = outside a brace group, `some acc` = inside one with the
characters read so far (reversed).  An empty group is not a match (the
regex requires at least one non-closing-brace character). -/
def scanParams : List Char → Option (List Char) → List (List Char)
  | [], _ => []
  | c :: rest, none =>
    if c == '{' then scanParams rest (some []) else scanParams rest none
  | c :: rest, some acc =>
    if c == '}' then
      if acc.isEmpty then scanParams rest none
      else acc.reverse :: scanParams rest none
    else scanParams rest (some (c :: acc))

/-- Python `s.split(sep)` for a one-character separator. -/
def splitChar (sep : Char) : List Char → List (List Char)
  | [] => [[]]
  | c :: rest =>
    if c == sep then [] :: splitChar sep rest
    else
      match splitChar sep rest with
      | s :: ss => (c :: s) :: ss
      | [] => [[c]]

/-- Line 223: the verb vocabulary. -/
def verbs : List String :=
  ["get", "create", "update", "delete", "fetch", "list", "add", "remove"]

/-- The verb-in-path warning message for a path (line 227). -/
def verbMsg (path : String) : String :=
  "Path '" ++ path ++ "': Avoid verbs in path (use HTTP methods instead)"

/-- Lines 208-227: per-path convention warnings (parameters, trailing slash,
verbs in path). -/
def checkPathConventions (path : String) : List String :=
  let paramWarns :=
    if substr "\x7b" path && substr "\x7d" path then
      ((scanParams path.data none).filter
          (fun param => param.map Char.toUpper == param || param.contains '_')).map
        (fun param =>
          "Path '" ++ path ++ "': Parameter '" ++ (⟨param⟩ : String) ++ "' should use camelCase")
    else []
  let trailing :=
    if pyEndsWith path "/" && path != "/" then
      ["Path '" ++ path ++ "': Avoid trailing slashes"]
    else []
  let pathParts := splitChar '/' (lowerStr path).data
  let verbWarns :=
    (verbs.filter (fun verb => pathParts.contains verb.data)).map
      (fun _ => verbMsg path)
  paramWarns ++ trailing ++ verbWarns

/-- Function `validate_best_practices` (lines 185-229). -/
def validate_best_practices (spec : Val) : Option (List String) :=
  match pyIn "servers" spec with
  | none => none
  | some hasServers =>
    let w1 := if !hasServers then
        ["No 'servers' defined (recommended to specify base URLs)"]
      else []
    match pyIn "tags" spec with
    | none => none
    | some hasTags =>
      let w2 := if !hasTags then
          ["No 'tags' defined (recommended for API organization)"]
        else []
      match pyGet spec "info" (.obj []) with
      | none => none
      | some info =>
        match pyIn "contact" info with
        | none => none
        | some hasContact =>
          let w3 := if !hasContact then
              ["No contact information in 'info' (recommended)"]
            else []
          match pyIn "license" info with
          | none => none
          | some hasLicense =>
            let w4 := if !hasLicense then
                ["No license information in 'info' (consider adding)"]
              else []
            match pyGet spec "paths" (.obj []) with
            | none => none
            | some pathsV =>
              match pyItems pathsV with
              | none => none
              | some paths =>
                some (w1 ++ w2 ++ w3 ++ w4 ++
                  (paths.map (fun pv => checkPathConventions pv.1)).flatten)

/-! ### `main` (lines 232-297): severity classification, aggregation, exit -/

/-- Line 255: a structure-pass message is filed as an error iff it contains
`'Missing required'` or `'Unsupported'`. -/
def isStructErr (e : String) : Bool :=
  substr "Missing required" e || substr "Unsupported" e

/-- Line 259: a paths-pass message is filed as an error iff it contains
`'Missing'` and its lowercasing contains `'required'`. -/
def isPathErr (e : String) : Bool :=
  substr "Missing" e && substr "required" (lowerStr e)

/-- Line 263: a schemas-pass message is filed as an error iff its lowercasing
contains `'required'`. -/
def isSchemaErr (e : String) : Bool :=
  substr "required" (lowerStr e)

/-- Line 267: a security-pass message is filed as an error iff it contains
`'Missing'` and `'requires'`. -/
def isSecurityErr (e : String) : Bool :=
  substr "Missing" e && substr "requires" e

/-- Lines 250-274 of `main`: run the six passes and build the
`(all_errors, all_warnings)` pair, including the `e not in all_errors`
membership tests that the warning comprehensions perform. -/
def runValidations (spec : Val) : Option (List String × List String) :=
  match validate_structure spec with
  | none => none
  | some structure_errors =>
    let e1 := structure_errors.filter isStructErr
    let w1 := structure_errors.filter (fun e => !(e1.contains e))
    match validate_paths spec with
    | none => none
    | some path_issues =>
      let e2 := path_issues.filter isPathErr
      let w2 := path_issues.filter (fun e => !((e1 ++ e2).contains e))
      match validate_schemas spec with
      | none => none
      | some schema_issues =>
        let e3 := schema_issues.filter isSchemaErr
        let w3 := schema_issues.filter (fun e => !((e1 ++ e2 ++ e3).contains e))
        match validate_security spec with
        | none => none
        | some security_issues =>
          let e4 := security_issues.filter isSecurityErr
          let w4 := security_issues.filter (fun e => !((e1 ++ e2 ++ e3 ++ e4).contains e))
          match validate_examples spec with
          | none => none
          | some example_warnings =>
            match validate_best_practices spec with
            | none => none
            | some best_practice_warnings =>
              some (e1 ++ e2 ++ e3 ++ e4,
                    w1 ++ w2 ++ w3 ++ w4 ++ example_warnings ++ best_practice_warnings)

/-- The outcome of `load_spec` as `main` sees it (lines 243-248): either a
parsed document, or a load failure (which makes `main` exit with status 1
before validating). -/
inductive LoadResult where
  | ok (spec : Val)
  | failed (msg : String)

/-- The process exit status chosen by `main` (lines 243-248 and 277-293):
1 on load failure, otherwise 1 iff `all_errors` is non-empty, 0 otherwise.
`none` models the interpreter dying on an uncaught exception instead of
reaching an explicit exit. -/
def mainExit : LoadResult → Option Nat
  | .failed _ => some 1
  | .ok spec =>
    match runValidations spec with
    | none => none
    | some (all_errors, _all_warnings) =>
      some (if all_errors = [] then 0 else 1)

/-- The operating-system exit status of the whole process: the coded
`sys.exit` value when `main` completes, and 1 when the interpreter dies on
an uncaught exception (CPython exits with status 1 after printing the
traceback). -/
def processExit (lr : LoadResult) : Nat :=
  match mainExit lr with
  | some c => c
  | none => 1

/-- The six check passes, in the order `main` runs them. -/
inductive Pass where
  | structureCheck | pathsCheck | schemasCheck | securityCheck
  | examplesCheck | bestPracticesCheck

/-- The per-pass severity rule of `main`: `classify p e = true` means a raw
message `e` emitted by pass `p` is filed as an Error; the examples and
best-practices passes are extended into `all_warnings` unconditionally. -/
def classify : Pass → String → Bool
  | .structureCheck, e => isStructErr e
  | .pathsCheck, e => isPathErr e
  | .schemasCheck, e => isSchemaErr e
  | .securityCheck, e => isSecurityErr e
  | .examplesCheck, _ => false
  | .bestPracticesCheck, _ => false

/-! ### Concrete documents used to settle individual claims -/

/-- A well-formed document whose single `get` operation lacks `responses`. -/
def docMissingResponses : Val :=
  .obj [("openapi", .str "3.0.0"),
        ("info", .obj [("title", .str "t"), ("version", .str "1")]),
        ("paths", .obj [("/users", .obj [("get", .obj [])])])]

/-- A document whose `paths` object is present but empty. -/
def docEmptyPaths : Val :=
  .obj [("openapi", .str "3.0.0"),
        ("info", .obj [("title", .str "t"), ("version", .str "1")]),
        ("paths", .obj [])]

/-- A document declaring `components.securitySchemes.myApiKey of type apiKey`
with neither `name` nor `in`; its single operation is otherwise clean. -/
def docApiKeyNoFields : Val :=
  .obj [("openapi", .str "3.0.0"),
        ("info", .obj [("title", .str "t"), ("version", .str "1")]),
        ("paths", .obj [("/u", .obj [("get", .obj
          [("responses", .obj [("200", .obj [])]),
           ("summary", .str "s"), ("operationId", .str "o")])])]),
        ("components", .obj [("securitySchemes", .obj
          [("myApiKey", .obj [("type", .str "apiKey")])])])]

/-- A document with a path key `users` that does not start with `/`. -/
def docBadPathKey : Val :=
  .obj [("openapi", .str "3.0.0"),
        ("info", .obj [("title", .str "t"), ("version", .str "1")]),
        ("paths", .obj [("users", .obj [("get", .obj
          [("responses", .obj [("200", .obj [])]),
           ("summary", .str "s"), ("operationId", .str "o")])])])]

/-- A clean document producing only warnings (no errors at all). -/
def docClean : Val :=
  .obj [("openapi", .str "3.0.0"),
        ("info", .obj [("title", .str "t"), ("version", .str "1")]),
        ("paths", .obj [("/a", .obj [("get", .obj
          [("responses", .obj [("200", .obj [])]),
           ("summary", .str "s"), ("operationId", .str "o")])])])]

/-! ### Spec-side (refinement target) formulations for the example pass -/

/-- The spec's per-media-type test: the media-type object carries neither
`example` nor `examples`.  (Spec wording; compared against the code's
`checkContent` behaviour on shaped inputs.) -/
def lacksExample (v : Val) : Bool :=
  match v with
  | .obj fs =>
    !((fs.map Prod.fst).contains "example") && !((fs.map Prod.fst).contains "examples")
  | _ => false

/-- Spec wording: one warning per request-body media-type entry lacking
examples. -/
def specRequestWarnings (method path : String) (cts : List (String × Val)) :
    List String :=
  (cts.filter (fun p => lacksExample p.2)).map
    (fun _ => upperStr method ++ " " ++ path ++ ": Request body missing example")

/-- Spec wording: one warning per media-type entry, of each response whose
status-code string starts with "2", lacking examples. -/
def specResponseWarnings (method path : String)
    (rs : List (String × List (String × Val))) : List String :=
  (rs.map (fun r =>
    if pyStartsWith r.1 "2" then
      (r.2.filter (fun q => lacksExample q.2)).map
        (fun _ => upperStr method ++ " " ++ path ++ ": Response " ++ r.1 ++ " missing example")
    else [])).flatten

/-- An operation object with a request body holding content entries `cts` and
responses holding, per status code, content entries as given in `rs`. -/
def opWithExamples (cts : List (String × Val))
    (rs : List (String × List (String × Val))) : Val :=
  .obj [("requestBody", .obj [("content", .obj cts)]),
        ("responses", .obj (rs.map (fun r => (r.1, Val.obj [("content", .obj r.2)]))))]

/-! ### Plumbing lemmas -/

theorem mapOpt_mem {α β : Type} {f : α → Option β} {l : List α} {rs : List β}
    (h : mapOpt f l = some rs) : ∀ r ∈ rs, ∃ a ∈ l, f a = some r := by
  induction l generalizing rs with
  | nil =>
    intro r hr
    simp only [mapOpt, Option.some.injEq] at h
    subst h; cases hr
  | cons a l ih =>
    intro r hr
    cases hfa : f a with
    | none => simp [mapOpt, hfa] at h
    | some b =>
      cases hml : mapOpt f l with
      | none => simp [mapOpt, hfa, hml] at h
      | some bs =>
        simp only [mapOpt, hfa, hml, Option.some.injEq] at h
        subst h
        rcases List.mem_cons.mp hr with rfl | hr
        · exact ⟨a, List.mem_cons_self a l, hfa⟩
        · obtain ⟨a', ha', hfa'⟩ := ih hml r hr
          exact ⟨a', List.mem_cons_of_mem _ ha', hfa'⟩

/-- The first two characters of a message, used to show that messages of
different passes are never the same string. -/
def tag2 (e : String) : List Char := e.data.take 2

/-- Possible two-character openings of `validate_structure` messages. -/
def structTags : List (List Char) := [['M', 'i'], ['U', 'n'], [Char.ofNat 39, 'p']]

/-- Possible two-character openings of `validate_paths` messages. -/
def pathTags : List (List Char) :=
  [['P', 'a'], ['G', 'E'], ['P', 'O'], ['P', 'U'], ['P', 'A'], ['D', 'E'],
   ['O', 'P'], ['H', 'E']]

/-- Possible two-character openings of `validate_schemas` messages. -/
def schemaTags : List (List Char) := [['S', 'c']]

/-- Possible two-character openings of `validate_security` messages. -/
def securityTags : List (List Char) := [['S', 'e'], ['N', 'o']]

theorem checkOpenapi_shape {spec : Val} {es : List String}
    (h : checkOpenapi spec = some es) : ∀ e ∈ es, tag2 e ∈ structTags := by
  intro e he
  unfold checkOpenapi at h
  cases hin : pyIn "openapi" spec with
  | none => rw [hin] at h; cases h
  | some hasOpenapi =>
    rw [hin] at h
    cases hasOpenapi with
    | false =>
      simp only [Bool.not_false, if_true] at h
      cases h; simp only [List.mem_singleton] at he; subst he; decide
    | true =>
      simp only [Bool.not_true, Bool.false_eq_true, if_false] at h
      cases hit : pyItem spec "openapi" with
      | none => rw [hit] at h; cases h
      | some v =>
        rw [hit] at h
        cases v with
        | str s =>
          cases hsw : pyStartsWith s "3.0" with
          | true => simp only [hsw, if_true] at h; cases h; cases he
          | false =>
            simp only [hsw, Bool.false_eq_true, if_false] at h
            cases h
            simp only [List.mem_singleton] at he
            subst he
            have ht : tag2 ("Unsupported OpenAPI version: " ++ s) = ['U', 'n'] := rfl
            rw [ht]; decide
        | num n => cases h
        | bool b => cases h
        | null => cases h
        | arr xs => cases h
        | obj fs => cases h

theorem checkInfo_shape {spec : Val} {es : List String}
    (h : checkInfo spec = some es) : ∀ e ∈ es, tag2 e ∈ structTags := by
  intro e he
  unfold checkInfo at h
  cases hin : pyIn "info" spec with
  | none => rw [hin] at h; cases h
  | some hasInfo =>
    rw [hin] at h
    cases hasInfo with
    | false =>
      simp only [Bool.not_false, if_true] at h
      cases h; simp only [List.mem_singleton] at he; subst he; decide
    | true =>
      simp only [Bool.not_true, Bool.false_eq_true, if_false] at h
      cases hit : pyItem spec "info" with
      | none => rw [hit] at h; cases h
      | some info =>
        rw [hit] at h
        dsimp only at h
        cases ht : pyIn "title" info with
        | none => rw [ht] at h; cases h
        | some hasTitle =>
          rw [ht] at h
          cases hv : pyIn "version" info with
          | none => rw [hv] at h; cases h
          | some hasVersion =>
            rw [hv] at h
            cases h
            cases hasTitle <;> cases hasVersion <;>
              simp only [Bool.not_false, Bool.not_true, if_true,
                Bool.false_eq_true, if_false, List.mem_append, List.mem_singleton,
                List.append_nil, List.nil_append, List.not_mem_nil, or_false,
                false_or] at he
            · rcases he with rfl | rfl <;> decide
            · subst he; decide
            · subst he; decide

theorem checkPathsField_shape {spec : Val} {es : List String}
    (h : checkPathsField spec = some es) : ∀ e ∈ es, tag2 e ∈ structTags := by
  intro e he
  unfold checkPathsField at h
  cases hin : pyIn "paths" spec with
  | none => rw [hin] at h; cases h
  | some hasPaths =>
    rw [hin] at h
    cases hasPaths with
    | false =>
      simp only [Bool.not_false, if_true] at h
      cases h; simp only [List.mem_singleton] at he; subst he; decide
    | true =>
      simp only [Bool.not_true, Bool.false_eq_true, if_false] at h
      cases hit : pyItem spec "paths" with
      | none => rw [hit] at h; cases h
      | some p =>
        rw [hit] at h
        cases h
        cases htr : pyTruthy p <;> simp only [htr, Bool.not_false, Bool.not_true,
          if_true, Bool.false_eq_true, if_false, List.mem_singleton,
          List.not_mem_nil] at he
        subst he; decide

theorem structure_shape {spec : Val} {se : List String}
    (h : validate_structure spec = some se) : ∀ e ∈ se, tag2 e ∈ structTags := by
  intro e he
  unfold validate_structure at h
  cases h1 : checkOpenapi spec with
  | none => rw [h1] at h; cases h
  | some es1 =>
    rw [h1] at h
    cases h2 : checkInfo spec with
    | none => rw [h2] at h; cases h
    | some es2 =>
      rw [h2] at h
      cases h3 : checkPathsField spec with
      | none => rw [h3] at h; cases h
      | some es3 =>
        rw [h3] at h
        cases h
        rcases List.mem_append.mp he with he' | he3
        · rcases List.mem_append.mp he' with he1 | he2
          · exact checkOpenapi_shape h1 e he1
          · exact checkInfo_shape h2 e he2
        · exact checkPathsField_shape h3 e he3

theorem tag2_method {method : String} (hm : method ∈ operations)
    (p suffix : String) :
    tag2 (upperStr method ++ " " ++ p ++ suffix) ∈ pathTags := by
  fin_cases hm
  · have ht : tag2 (upperStr "get" ++ " " ++ p ++ suffix) = ['G', 'E'] := rfl
    rw [ht]; decide
  · have ht : tag2 (upperStr "post" ++ " " ++ p ++ suffix) = ['P', 'O'] := rfl
    rw [ht]; decide
  · have ht : tag2 (upperStr "put" ++ " " ++ p ++ suffix) = ['P', 'U'] := rfl
    rw [ht]; decide
  · have ht : tag2 (upperStr "patch" ++ " " ++ p ++ suffix) = ['P', 'A'] := rfl
    rw [ht]; decide
  · have ht : tag2 (upperStr "delete" ++ " " ++ p ++ suffix) = ['D', 'E'] := rfl
    rw [ht]; decide
  · have ht : tag2 (upperStr "options" ++ " " ++ p ++ suffix) = ['O', 'P'] := rfl
    rw [ht]; decide
  · have ht : tag2 (upperStr "head" ++ " " ++ p ++ suffix) = ['H', 'E'] := rfl
    rw [ht]; decide

theorem opRespErrors_shape {method path : String} {operation : Val}
    {es : List String} (hm : method ∈ operations)
    (h : opRespErrors method path operation = some es) :
    ∀ e ∈ es, tag2 e ∈ pathTags := by
  intro e he
  unfold opRespErrors at h
  cases hr : pyIn "responses" operation with
  | none => rw [hr] at h; cases h
  | some hasResponses =>
    rw [hr] at h
    cases hasResponses with
    | false =>
      simp only [Bool.not_false, if_true] at h
      cases h; simp only [List.mem_singleton] at he; subst he
      exact tag2_method hm path ": Missing 'responses'"
    | true =>
      simp only [Bool.not_true, Bool.false_eq_true, if_false] at h
      cases hri : pyItem operation "responses" with
      | none => rw [hri] at h; cases h
      | some r =>
        rw [hri] at h
        cases h
        cases htr : pyTruthy r <;> simp only [htr, Bool.not_false, Bool.not_true,
          if_true, Bool.false_eq_true, if_false, List.mem_singleton,
          List.not_mem_nil] at he
        subst he
        exact tag2_method hm path ": 'responses' is empty"

theorem opDocWarnings_shape {method path : String} {operation : Val}
    {ws : List String} (hm : method ∈ operations)
    (h : opDocWarnings method path operation = some ws) :
    ∀ e ∈ ws, tag2 e ∈ pathTags := by
  intro e he
  unfold opDocWarnings at h
  cases hs : pyIn "summary" operation with
  | none => rw [hs] at h; cases h
  | some hasSummary =>
    cases hd : pyIn "description" operation with
    | none => rw [hs, hd] at h; cases h
    | some hasDescription =>
      rw [hs, hd] at h
      dsimp only at h
      cases ho : pyIn "operationId" operation with
      | none => rw [ho] at h; cases h
      | some hasOpId =>
        rw [ho] at h
        cases h
        rcases List.mem_append.mp he with h1 | h2
        · rcases hb : (!hasSummary && !hasDescription) with _ | _ <;>
            rw [hb] at h1 <;> simp only [if_true, Bool.false_eq_true, if_false,
              List.mem_singleton, List.not_mem_nil] at h1
          subst h1
          exact tag2_method hm path ": Missing 'summary' or 'description'"
        · cases hasOpId <;> simp only [Bool.not_false, Bool.not_true, if_true,
            Bool.false_eq_true, if_false, List.mem_singleton,
            List.not_mem_nil] at h2
          subst h2
          exact tag2_method hm path ": Missing 'operationId' (recommended)"

theorem checkOperation_shape {method path : String} {operation : Val}
    {res : List String × List String} (hm : method ∈ operations)
    (h : checkOperation method path operation = some res) :
    ∀ e, (e ∈ res.1 ∨ e ∈ res.2) → tag2 e ∈ pathTags := by
  intro e he
  unfold checkOperation at h
  cases h1 : opRespErrors method path operation with
  | none => rw [h1] at h; cases h
  | some errs =>
    rw [h1] at h
    cases h2 : opDocWarnings method path operation with
    | none => rw [h2] at h; cases h
    | some ws =>
      rw [h2] at h
      cases h
      rcases he with he | he
      · exact opRespErrors_shape hm h1 e he
      · exact opDocWarnings_shape hm h2 e he

theorem pathsInner_shape {path : String} {pitem : Val} {method : String}
    {pr : List String × List String} (hm : method ∈ operations)
    (h : (match pyIn method pitem with
          | none => none
          | some present =>
            if present then
              match pyItem pitem method with
              | none => none
              | some operation => checkOperation method path operation
            else some ([], [])) = some pr) :
    ∀ e, (e ∈ pr.1 ∨ e ∈ pr.2) → tag2 e ∈ pathTags := by
  intro e he
  cases hin : pyIn method pitem with
  | none => rw [hin] at h; cases h
  | some present =>
    rw [hin] at h
    cases present with
    | false =>
      simp only [Bool.false_eq_true, if_false] at h
      cases h
      rcases he with he | he <;> cases he
    | true =>
      simp only [if_true] at h
      cases hit : pyItem pitem method with
      | none => rw [hit] at h; cases h
      | some operation =>
        rw [hit] at h
        exact checkOperation_shape hm h e he

theorem checkPathItem_shape {path : String} {pitem : Val}
    {res : List String × List String}
    (h : checkPathItem path pitem = some res) :
    ∀ e, (e ∈ res.1 ∨ e ∈ res.2) → tag2 e ∈ pathTags := by
  intro e he
  unfold checkPathItem at h
  cases ha : anyOpt (fun op => pyIn op pitem) operations with
  | none => rw [ha] at h; cases h
  | some hasOperation =>
    rw [ha] at h
    dsimp only at h
    cases hmo : mapOpt (fun method =>
        match pyIn method pitem with
        | none => none
        | some present =>
          if present then
            match pyItem pitem method with
            | none => none
            | some operation => checkOperation method path operation
          else some ([], [])) operations with
    | none => rw [hmo] at h; cases h
    | some results =>
      rw [hmo] at h
      cases h
      rcases he with he | he
      · rcases List.mem_append.mp he with he0 | hef
        · split at he0 <;> simp only [List.mem_singleton, List.not_mem_nil] at he0
          subst he0
          have ht : tag2 ("Path '" ++ path ++ "' must start with '/'") = ['P', 'a'] := rfl
          rw [ht]; decide
        · obtain ⟨l, hl, hel⟩ := List.mem_flatten.mp hef
          obtain ⟨pr, hpr, rfl⟩ := List.mem_map.mp hl
          obtain ⟨method, hmth, hfm⟩ := mapOpt_mem hmo pr hpr
          exact pathsInner_shape hmth hfm e (Or.inl hel)
      · rcases List.mem_append.mp he with he0 | hef
        · split at he0 <;> simp only [List.mem_singleton, List.not_mem_nil] at he0
          subst he0
          have ht : tag2 ("Path '" ++ path ++ "' has no operations defined") = ['P', 'a'] := rfl
          rw [ht]; decide
        · obtain ⟨l, hl, hel⟩ := List.mem_flatten.mp hef
          obtain ⟨pr, hpr, rfl⟩ := List.mem_map.mp hl
          obtain ⟨method, hmth, hfm⟩ := mapOpt_mem hmo pr hpr
          exact pathsInner_shape hmth hfm e (Or.inr hel)

theorem paths_shape {spec : Val} {pi : List String}
    (h : validate_paths spec = some pi) : ∀ e ∈ pi, tag2 e ∈ pathTags := by
  intro e he
  unfold validate_paths at h
  cases hg : pyGet spec "paths" (.obj []) with
  | none => rw [hg] at h; cases h
  | some pathsV =>
    rw [hg] at h
    dsimp only at h
    cases hi : pyItems pathsV with
    | none => rw [hi] at h; cases h
    | some paths =>
      rw [hi] at h
      dsimp only at h
      cases hmo : mapOpt (fun pv => checkPathItem pv.1 pv.2) paths with
      | none => rw [hmo] at h; cases h
      | some results =>
        rw [hmo] at h
        cases h
        rcases List.mem_append.mp he with hef | hef <;>
        · obtain ⟨l, hl, hel⟩ := List.mem_flatten.mp hef
          obtain ⟨pr, hpr, rfl⟩ := List.mem_map.mp hl
          obtain ⟨pv, _hpv, hfm⟩ := mapOpt_mem hmo pr hpr
          first
          | exact checkPathItem_shape hfm e (Or.inl hel)
          | exact checkPathItem_shape hfm e (Or.inr hel)

theorem checkSchema_shape {schemaName : String} {schema : Val}
    {ws : List String} (h : checkSchema schemaName schema = some ws) :
    ∀ e ∈ ws, tag2 e ∈ schemaTags := by
  intro e he
  unfold checkSchema at h
  cases h1 : pyIn "type" schema <;> rw [h1] at h <;>
    cases h2 : pyIn "$ref" schema <;> rw [h2] at h <;>
    cases h3 : pyIn "allOf" schema <;> rw [h3] at h <;>
    cases h4 : pyIn "oneOf" schema <;> rw [h4] at h <;>
    cases h5 : pyIn "anyOf" schema <;> rw [h5] at h <;>
    dsimp only at h
  case some.some.some.some.some hasType hasRef hasAllOf hasOneOf hasAnyOf =>
    cases h6 : pyIn "description" schema with
    | none => rw [h6] at h; cases h
    | some hasDescription =>
      rw [h6] at h
      dsimp only at h
      cases h7 : pyGet schema "type" .null with
      | none => rw [h7] at h; cases h
      | some tv =>
        rw [h7] at h
        dsimp only at h
        have inner : ∀ w3 : List String,
            (∀ e' ∈ w3, tag2 e' ∈ schemaTags) →
            some ((if (!hasType && !hasRef && !hasAllOf && !hasOneOf && !hasAnyOf) = true then
                ["Schema '" ++ schemaName ++ "': Missing 'type' property"] else []) ++
              ((if (!hasDescription) = true then
                ["Schema '" ++ schemaName ++ "': Missing 'description' (recommended)"] else []) ++ w3))
              = some ws → tag2 e ∈ schemaTags := by
          intro w3 hw3 hws
          cases hws
          rcases List.mem_append.mp he with ha | hb
          · split at ha <;> simp only [List.mem_singleton, List.not_mem_nil] at ha
            subst ha
            have ht : tag2 ("Schema '" ++ schemaName ++ "': Missing 'type' property") = ['S', 'c'] := rfl
            rw [ht]; decide
          · rcases List.mem_append.mp hb with hb1 | hb2
            · split at hb1 <;> simp only [List.mem_singleton, List.not_mem_nil] at hb1
              subst hb1
              have ht : tag2 ("Schema '" ++ schemaName ++ "': Missing 'description' (recommended)") = ['S', 'c'] := rfl
              rw [ht]; decide
            · exact hw3 e hb2
        rcases hq : isStrEq tv "object" with _ | _ <;> rw [hq] at h <;>
          simp only [if_true, Bool.false_eq_true, if_false] at h
        · exact inner [] (by intro e' he'; cases he') (by
            rw [← h]; simp only [List.append_nil, List.append_assoc])
        · cases h8 : pyIn "properties" schema with
          | none => rw [h8] at h; cases h
          | some hasProps =>
            rw [h8] at h
            refine inner (if (!hasProps) = true then
                ["Schema '" ++ schemaName ++ "': Object type but no 'properties' defined"] else [])
              ?_ (by rw [← h]; simp only [List.append_assoc])
            intro e' he'
            split at he' <;> simp only [List.mem_singleton, List.not_mem_nil] at he'
            subst he'
            have ht : tag2 ("Schema '" ++ schemaName ++ "': Object type but no 'properties' defined") = ['S', 'c'] := rfl
            rw [ht]; decide
  all_goals cases h

theorem schemas_shape {spec : Val} {si : List String}
    (h : validate_schemas spec = some si) : ∀ e ∈ si, tag2 e ∈ schemaTags := by
  intro e he
  unfold validate_schemas at h
  cases hg : pyGet spec "components" (.obj []) with
  | none => rw [hg] at h; cases h
  | some components =>
    rw [hg] at h
    dsimp only at h
    cases hs : pyGet components "schemas" (.obj []) with
    | none => rw [hs] at h; cases h
    | some schemasV =>
      rw [hs] at h
      dsimp only at h
      cases hi : pyItems schemasV with
      | none => rw [hi] at h; cases h
      | some schemas =>
        rw [hi] at h
        dsimp only at h
        cases hmo : mapOpt (fun sv => checkSchema sv.1 sv.2) schemas with
        | none => rw [hmo] at h; cases h
        | some results =>
          rw [hmo] at h
          cases h
          obtain ⟨l, hl, hel⟩ := List.mem_flatten.mp he
          obtain ⟨sv, _hsv, hfm⟩ := mapOpt_mem hmo l hl
          exact checkSchema_shape hfm e hel

theorem checkScheme_shape {schemeName : String} {scheme : Val}
    {es : List String} (h : checkScheme schemeName scheme = some es) :
    ∀ e ∈ es, tag2 e = ['S', 'e'] := by
  intro e he
  unfold checkScheme at h
  cases h1 : pyIn "type" scheme with
  | none => rw [h1] at h; cases h
  | some hasType =>
    rw [h1] at h
    dsimp only at h
    cases h2 : pyGet scheme "type" .null with
    | none => rw [h2] at h; cases h
    | some schemeType =>
      rw [h2] at h
      dsimp only at h
      have inner : ∀ es2 : List String,
          (∀ e' ∈ es2, tag2 e' = ['S', 'e']) →
          some ((if (!hasType) = true then
              ["Security scheme '" ++ schemeName ++ "': Missing 'type'"] else []) ++ es2)
            = some es → tag2 e = ['S', 'e'] := by
        intro es2 hes2 hes
        cases hes
        rcases List.mem_append.mp he with ha | hb
        · split at ha <;> simp only [List.mem_singleton, List.not_mem_nil] at ha
          subst ha; rfl
        · exact hes2 e hb
      rcases hq1 : isStrEq schemeType "http" with _ | _ <;> rw [hq1] at h <;>
        simp only [if_true, Bool.false_eq_true, if_false] at h
      case false =>
        rcases hq2 : isStrEq schemeType "apiKey" with _ | _ <;> rw [hq2] at h <;>
          simp only [if_true, Bool.false_eq_true, if_false] at h
        case false =>
          rcases hq3 : isStrEq schemeType "oauth2" with _ | _ <;> rw [hq3] at h <;>
            simp only [if_true, Bool.false_eq_true, if_false] at h
          case false =>
            exact inner [] (by intro e' he'; cases he') h
          case true =>
            cases h3 : pyIn "flows" scheme with
            | none => rw [h3] at h; cases h
            | some hasFlows =>
              rw [h3] at h
              refine inner _ ?_ h
              intro e' he'
              split at he' <;> simp only [List.mem_singleton, List.not_mem_nil] at he'
              subst he'; rfl
        case true =>
          cases h3 : pyIn "name" scheme with
          | none => rw [h3] at h; cases h
          | some hasName =>
            rw [h3] at h
            dsimp only at h
            cases h4 : pyIn "in" scheme with
            | none => rw [h4] at h; cases h
            | some hasIn =>
              rw [h4] at h
              refine inner _ ?_ h
              intro e' he'
              rcases List.mem_append.mp he' with ha | hb
              · split at ha <;> simp only [List.mem_singleton, List.not_mem_nil] at ha
                subst ha; rfl
              · split at hb <;> simp only [List.mem_singleton, List.not_mem_nil] at hb
                subst hb; rfl
      case true =>
        cases h3 : pyIn "scheme" scheme with
        | none => rw [h3] at h; cases h
        | some hasScheme =>
          rw [h3] at h
          refine inner _ ?_ h
          intro e' he'
          split at he' <;> simp only [List.mem_singleton, List.not_mem_nil] at he'
          subst he'; rfl

theorem security_shape {spec : Val} {sec : List String}
    (h : validate_security spec = some sec) : ∀ e ∈ sec, tag2 e ∈ securityTags := by
  intro e he
  unfold validate_security at h
  cases hg : pyGet spec "components" (.obj []) with
  | none => rw [hg] at h; cases h
  | some components =>
    rw [hg] at h
    dsimp only at h
    cases hs : pyGet components "securitySchemes" (.obj []) with
    | none => rw [hs] at h; cases h
    | some schemes =>
      rw [hs] at h
      dsimp only at h
      cases hi : pyItems schemes with
      | none => rw [hi] at h; cases h
      | some items =>
        rw [hi] at h
        dsimp only at h
        cases hmo : mapOpt (fun sv => checkScheme sv.1 sv.2) items with
        | none => rw [hmo] at h; cases h
        | some results =>
          rw [hmo] at h
          cases h
          rcases List.mem_append.mp he with ha | hb
          · obtain ⟨l, hl, hel⟩ := List.mem_flatten.mp ha
            obtain ⟨sv, _hsv, hfm⟩ := mapOpt_mem hmo l hl
            rw [checkScheme_shape hfm e hel]; decide
          · split at hb <;> simp only [List.mem_singleton, List.not_mem_nil] at hb
            subst hb; decide

theorem disj_struct_path : ∀ t ∈ structTags, t ∉ pathTags := by decide

theorem disj_struct_schema : ∀ t ∈ structTags, t ∉ schemaTags := by decide

theorem disj_path_schema : ∀ t ∈ pathTags, t ∉ schemaTags := by decide

theorem disj_struct_sec : ∀ t ∈ structTags, t ∉ securityTags := by decide

theorem disj_path_sec : ∀ t ∈ pathTags, t ∉ securityTags := by decide

theorem disj_schema_sec : ∀ t ∈ schemaTags, t ∉ securityTags := by decide

theorem contains_filter_eq (l : List String) (p : String → Bool) (e : String)
    (he : e ∈ l) : (l.filter p).contains e = p e := by
  cases hp : p e
  · cases hc : (l.filter p).contains e
    · rfl
    · have hmem : e ∈ l.filter p := List.elem_iff.mp hc
      have := (List.mem_filter.mp hmem).2
      rw [hp] at this; cases this
  · exact List.elem_iff.mpr (List.mem_filter.mpr ⟨he, hp⟩)

theorem contains_prev_filter (prev l : List String) (p : String → Bool)
    (e : String) (he : e ∈ l) (hprev : e ∉ prev) :
    (prev ++ l.filter p).contains e = p e := by
  cases hp : p e
  · cases hc : (prev ++ l.filter p).contains e
    · rfl
    · have hmem : e ∈ prev ++ l.filter p := List.elem_iff.mp hc
      rcases List.mem_append.mp hmem with hmem | hmem
      · exact absurd hmem hprev
      · have := (List.mem_filter.mp hmem).2
        rw [hp] at this; cases this
  · exact List.elem_iff.mpr
      (List.mem_append.mpr (Or.inr (List.mem_filter.mpr ⟨he, hp⟩)))

/-- C4: the Error/Warning split performed by `main` coincides, for every
document on which the run completes, with applying the pure per-pass
function `classify` to each raw message independently; every raw finding of
every pass lands in exactly one of the two output lists — nothing is
dropped by the accumulated-state membership tests and nothing from one
pass can interfere with another pass's messages. -/
theorem c4_severity_pure_function_and_no_finding_dropped (spec : Val)
    (se pi si sec ex bp : List String)
    (h1 : validate_structure spec = some se)
    (h2 : validate_paths spec = some pi)
    (h3 : validate_schemas spec = some si)
    (h4 : validate_security spec = some sec)
    (h5 : validate_examples spec = some ex)
    (h6 : validate_best_practices spec = some bp) :
    runValidations spec = some
      (se.filter (classify .structureCheck) ++ pi.filter (classify .pathsCheck) ++
         si.filter (classify .schemasCheck) ++ sec.filter (classify .securityCheck) ++
         ex.filter (classify .examplesCheck) ++ bp.filter (classify .bestPracticesCheck),
       se.filter (fun e => !classify .structureCheck e) ++
         pi.filter (fun e => !classify .pathsCheck e) ++
         si.filter (fun e => !classify .schemasCheck e) ++
         sec.filter (fun e => !classify .securityCheck e) ++
         ex.filter (fun e => !classify .examplesCheck e) ++
         bp.filter (fun e => !classify .bestPracticesCheck e)) := by
  have hw1 : se.filter (fun e => !(se.filter isStructErr).contains e) =
      se.filter (fun e => !isStructErr e) := by
    apply List.filter_congr
    intro e he
    rw [contains_filter_eq se isStructErr e he]
  have hnotstruct : ∀ e ∈ pi, e ∉ se.filter isStructErr := by
    intro e he hmem
    have hs := structure_shape h1 e (List.mem_of_mem_filter hmem)
    exact disj_struct_path _ hs (paths_shape h2 e he)
  have hw2 : pi.filter
        (fun e => !(se.filter isStructErr ++ pi.filter isPathErr).contains e) =
      pi.filter (fun e => !isPathErr e) := by
    apply List.filter_congr
    intro e he
    rw [contains_prev_filter _ _ _ _ he (hnotstruct e he)]
  have hnotprev3 : ∀ e ∈ si,
      e ∉ se.filter isStructErr ++ pi.filter isPathErr := by
    intro e he hmem
    have ht := schemas_shape h3 e he
    rcases List.mem_append.mp hmem with hmem | hmem
    · exact disj_struct_schema _ (structure_shape h1 e (List.mem_of_mem_filter hmem)) ht
    · exact disj_path_schema _ (paths_shape h2 e (List.mem_of_mem_filter hmem)) ht
  have hw3 : si.filter (fun e =>
        !(se.filter isStructErr ++ pi.filter isPathErr ++ si.filter isSchemaErr).contains e) =
      si.filter (fun e => !isSchemaErr e) := by
    apply List.filter_congr
    intro e he
    rw [contains_prev_filter _ _ _ _ he (hnotprev3 e he)]
  have hnotprev4 : ∀ e ∈ sec,
      e ∉ se.filter isStructErr ++ pi.filter isPathErr ++ si.filter isSchemaErr := by
    intro e he hmem
    have ht := security_shape h4 e he
    rcases List.mem_append.mp hmem with hmem | hmem
    · rcases List.mem_append.mp hmem with hmem | hmem
      · exact disj_struct_sec _ (structure_shape h1 e (List.mem_of_mem_filter hmem)) ht
      · exact disj_path_sec _ (paths_shape h2 e (List.mem_of_mem_filter hmem)) ht
    · exact disj_schema_sec _ (schemas_shape h3 e (List.mem_of_mem_filter hmem)) ht
  have hw4 : sec.filter (fun e =>
        !(se.filter isStructErr ++ pi.filter isPathErr ++ si.filter isSchemaErr ++
            sec.filter isSecurityErr).contains e) =
      sec.filter (fun e => !isSecurityErr e) := by
    apply List.filter_congr
    intro e he
    rw [contains_prev_filter _ _ _ _ he (hnotprev4 e he)]
  unfold runValidations
  rw [h1]
  dsimp only
  rw [h2]
  dsimp only
  rw [h3]
  dsimp only
  rw [h4]
  dsimp only
  rw [h5]
  dsimp only
  rw [h6]
  dsimp only
  rw [hw1, hw2, hw3, hw4]
  have hex : ex.filter (classify .examplesCheck) = [] := by
    simp [classify]
  have hbp : bp.filter (classify .bestPracticesCheck) = [] := by
    simp [classify]
  have hexw : ex.filter (fun e => !classify .examplesCheck e) = ex := by
    simp [classify]
  have hbpw : bp.filter (fun e => !classify .bestPracticesCheck e) = bp := by
    simp [classify]
  rw [hex, hbp, hexw, hbpw]
  simp only [List.append_nil, List.append_assoc]
  rfl

/-- C4 witness: the classification theorem applied to the concrete clean
document, whose run yields no errors and five warnings. -/
theorem c4_witness :
    runValidations docClean = some ([],
      ["No security schemes defined (consider adding authentication)",
       "No 'servers' defined (recommended to specify base URLs)",
       "No 'tags' defined (recommended for API organization)",
       "No contact information in 'info' (recommended)",
       "No license information in 'info' (consider adding)"]) := by
  have h := c4_severity_pure_function_and_no_finding_dropped docClean
    [] [] [] ["No security schemes defined (consider adding authentication)"] []
    ["No 'servers' defined (recommended to specify base URLs)",
     "No 'tags' defined (recommended for API organization)",
     "No contact information in 'info' (recommended)",
     "No license information in 'info' (consider adding)"]
    rfl rfl rfl rfl rfl rfl
  exact h.trans (by decide)

/-- C1 (code bug): on `docMissingResponses` the run produces exactly one
finding naming `GET /users` and `responses`, but `main`'s severity filter
(`'Missing' in e and 'required' in e.lower()`) fails to match it, so it is
filed among the warnings, `all_errors` is empty, and the exit status is 0 —
the spec demands an Error-severity finding. -/
theorem c1_missing_responses_demoted_to_warning :
    runValidations docMissingResponses = some ([],
      ["GET /users: Missing 'responses'",
       "GET /users: Missing 'summary' or 'description'",
       "GET /users: Missing 'operationId' (recommended)",
       "No security schemes defined (consider adding authentication)",
       "No 'servers' defined (recommended to specify base URLs)",
       "No 'tags' defined (recommended for API organization)",
       "No contact information in 'info' (recommended)",
       "No license information in 'info' (consider adding)"]) ∧
    mainExit (.ok docMissingResponses) = some 0 := by
  constructor <;> decide

/-- C2 (code bug): on `docEmptyPaths` the empty-`paths` finding is produced
but its message matches neither `'Missing required'` nor `'Unsupported'`, so
`main` files it among the warnings and exits 0 — the spec demands a distinct
Error and an Invalid outcome. -/
theorem c2_empty_paths_demoted_to_warning :
    runValidations docEmptyPaths = some ([],
      ["'paths' object is empty - at least one path is required",
       "No security schemes defined (consider adding authentication)",
       "No 'servers' defined (recommended to specify base URLs)",
       "No 'tags' defined (recommended for API organization)",
       "No contact information in 'info' (recommended)",
       "No license information in 'info' (consider adding)"]) ∧
    mainExit (.ok docEmptyPaths) = some 0 := by
  constructor <;> decide

/-- C3 (code bug): on `docApiKeyNoFields` the two apiKey findings (missing
`name`, missing `in`) are produced independently, but their messages contain
`'requires'` and not `'Missing'`, so `main`'s security filter files both
among the warnings and exits 0 — the spec demands two Errors. -/
theorem c3_apikey_findings_demoted_to_warnings :
    runValidations docApiKeyNoFields = some ([],
      ["Security scheme 'myApiKey': apiKey type requires 'name'",
       "Security scheme 'myApiKey': apiKey type requires 'in'",
       "No 'servers' defined (recommended to specify base URLs)",
       "No 'tags' defined (recommended for API organization)",
       "No contact information in 'info' (recommended)",
       "No license information in 'info' (consider adding)"]) ∧
    mainExit (.ok docApiKeyNoFields) = some 0 := by
  constructor <;> decide

/-- C6 (code bug): on `docBadPathKey` the finding for the path key `users`
(which does not start with `/`) is produced, but its message contains no
`'Missing'`, so `main` files it among the warnings and exits 0 — the spec
demands an Error. -/
theorem c6_bad_path_key_demoted_to_warning :
    runValidations docBadPathKey = some ([],
      ["Path 'users' must start with '/'",
       "No security schemes defined (consider adding authentication)",
       "No 'servers' defined (recommended to specify base URLs)",
       "No 'tags' defined (recommended for API organization)",
       "No contact information in 'info' (recommended)",
       "No license information in 'info' (consider adding)"]) ∧
    mainExit (.ok docBadPathKey) = some 0 := by
  constructor <;> decide

/-- C5 counterexample: the document whose `openapi` field is the non-string
scalar 3 loads successfully, crashes validation on an uncaught exception (so
the run produces no finding list, hence no Error finding), and the process
still exits with status 1 via the interpreter — refuting "the exit status is
1 exactly when the document fails to load or at least one Error finding is
produced, and 0 in every other case" at this input. -/
theorem c5_counterexample_crash_exits_one :
    ¬(processExit (.ok (.obj [("openapi", .num 3)])) = 1 ↔
      ((∃ m, LoadResult.ok (.obj [("openapi", .num 3)]) = .failed m) ∨
       (∃ errs warns,
          runValidations (.obj [("openapi", .num 3)]) = some (errs, warns) ∧
          errs ≠ []))) := by
  intro h
  rcases h.mp rfl with ⟨m, hm⟩ | ⟨errs, warns, hrw, _⟩
  · exact LoadResult.noConfusion hm
  · have h0 : runValidations (.obj [("openapi", .num 3)]) = none := rfl
    rw [h0] at hrw
    cases hrw

/-- C5 amended: the process exit status is 1 exactly when the document fails
to load, or validation dies on an uncaught exception before `main` can
classify anything, or the completed run has a non-empty `all_errors`; in
every other case — a completed run with no Error finding, warnings-only runs
included — it is 0 (and 0 and 1 are the only possible statuses). -/
theorem c5_amended_exit_status (lr : LoadResult) :
    (processExit lr = 0 ∨ processExit lr = 1) ∧
    (processExit lr = 1 ↔
      ((∃ m, lr = .failed m) ∨
       (∃ spec, lr = .ok spec ∧ runValidations spec = none) ∨
       (∃ spec errs warns, lr = .ok spec ∧
          runValidations spec = some (errs, warns) ∧ errs ≠ []))) := by
  cases lr with
  | failed m =>
    exact ⟨Or.inr rfl, fun _ => Or.inl ⟨m, rfl⟩, fun _ => rfl⟩
  | ok spec =>
    cases hrv : runValidations spec with
    | none =>
      have hp : processExit (.ok spec) = 1 := by
        unfold processExit mainExit
        dsimp only
        rw [hrv]
      exact ⟨Or.inr hp, fun _ => Or.inr (Or.inl ⟨spec, rfl, hrv⟩), fun _ => hp⟩
    | some p =>
      obtain ⟨errs, warns⟩ := p
      have hp : processExit (.ok spec) = if errs = [] then 0 else 1 := by
        unfold processExit mainExit
        dsimp only
        rw [hrv]
      by_cases he : errs = []
      · have hp0 : processExit (.ok spec) = 0 := by rw [hp, if_pos he]
        refine ⟨Or.inl hp0, ?_, ?_⟩
        · intro h1
          rw [hp0] at h1
          exact absurd h1 (by decide)
        · intro hr
          rcases hr with ⟨m, hm⟩ | ⟨spec', h1, h2⟩ | ⟨spec', errs', warns', h1, h2, h3⟩
          · exact LoadResult.noConfusion hm
          · injection h1 with h1e
            subst h1e
            rw [hrv] at h2
            cases h2
          · injection h1 with h1e
            subst h1e
            rw [hrv] at h2
            have hpair : (errs, warns) = (errs', warns') := by
              injection h2
            have herrs : errs = errs' := congrArg Prod.fst hpair
            exact absurd (by rw [← herrs]; exact he) h3
      · have hp1 : processExit (.ok spec) = 1 := by rw [hp, if_neg he]
        exact ⟨Or.inr hp1,
          fun _ => Or.inr (Or.inr ⟨spec, errs, warns, rfl, hrv, he⟩),
          fun _ => hp1⟩

/-- C9: the validation engine is a pure function of the Document Model, so
two runs on the same parsed document yield identical ordered error and
warning lists (and identical exit status). -/
theorem c9_two_runs_identical (spec : Val) :
    runValidations spec = runValidations spec ∧
    mainExit (.ok spec) = mainExit (.ok spec) :=
  ⟨rfl, rfl⟩

theorem dlookup_mem_keys {fs : List (String × Val)} {k : String} {v : Val}
    (h : dlookup fs k = some v) : (fs.map Prod.fst).contains k = true := by
  apply List.elem_iff.mpr
  induction fs with
  | nil => cases h
  | cons p rest ih =>
    obtain ⟨k', v'⟩ := p
    by_cases hk : (k' == k) = true
    · have hkk : k = k' := (eq_of_beq hk).symm
      subst hkk
      simp only [List.map_cons]
      exact List.mem_cons_self _ _
    · simp only [dlookup, hk, Bool.false_eq_true, if_false] at h
      simp only [List.map_cons]
      exact List.mem_cons_of_mem _ (ih h)

/-- C10: `validate_structure` is total only when a present `openapi` field
holds a string: any non-string value makes the `.startswith` attribute
access raise, so the run dies instead of returning findings, and the
"Unsupported OpenAPI version" branch is reachable only for strings. -/
theorem c10_nonstring_version_raises (spec : Val) (fs : List (String × Val))
    (v : Val) (hspec : spec = .obj fs) (hv : dlookup fs "openapi" = some v)
    (hns : ∀ s, v ≠ .str s) : validate_structure spec = none := by
  subst hspec
  have hco : checkOpenapi (.obj fs) = none := by
    unfold checkOpenapi
    have hin : pyIn "openapi" (.obj fs) = some true := by
      simp only [pyIn]
      rw [dlookup_mem_keys hv]
    rw [hin]
    simp only [Bool.not_true, Bool.false_eq_true, if_false]
    have hit : pyItem (.obj fs) "openapi" = some v := hv
    rw [hit]
    cases v with
    | str s => exact absurd rfl (hns s)
    | num n => rfl
    | bool b => rfl
    | null => rfl
    | arr xs => rfl
    | obj gs => rfl
  unfold validate_structure
  rw [hco]

/-- C10 witness: the document `{openapi: 3.0}` (a YAML float, modelled as the
non-string scalar `num 3`) makes the structure check raise. -/
theorem c10_witness :
    validate_structure (.obj [("openapi", .num 3)]) = none :=
  c10_nonstring_version_raises _ [("openapi", .num 3)] (.num 3) rfl rfl
    (fun _ h => Val.noConfusion h)

/-- C7 counterexample: the path `/get/delete` has segments matching two
vocabulary verbs, so the verb rule emits two (identical) warnings for this
single path, refuting "exactly one Warning for the whole path when at least
one segment matches". -/
theorem c7_counterexample_two_warnings_for_one_path :
    (validate_best_practices (.obj [("paths", .obj [("/get/delete", .null)])])).map
        (fun ws => ws.count (verbMsg "/get/delete")) = some 2 ∧ (2 : Nat) ≠ 1 := by
  constructor <;> decide

/-- C7 amended: the verb rule emits one warning per vocabulary verb that
equals some lowercased `/`-separated segment of the path — so `k` warnings
when `k` distinct verbs match, one in the single-match case, and none when
no segment is an exact match. -/
theorem c7_amended_one_warning_per_matching_verb (path : String) :
    (checkPathConventions path).count (verbMsg path) =
      (verbs.filter (fun verb =>
          (splitChar '/' (lowerStr path).data).contains verb.data)).length := by
  unfold checkPathConventions
  dsimp only
  rw [List.count_append, List.count_append]
  have hA : (if (substr "\x7b" path && substr "\x7d" path) = true then
        ((scanParams path.data none).filter
            (fun param => param.map Char.toUpper == param || param.contains '_')).map
          (fun param =>
            "Path '" ++ path ++ "': Parameter '" ++ (⟨param⟩ : String) ++ "' should use camelCase")
      else []).count (verbMsg path) = 0 := by
    split
    · apply List.count_eq_zero.mpr
      intro hmem
      obtain ⟨param, _hp, heq⟩ := List.mem_map.mp hmem
      have hd := congrArg String.data heq
      unfold verbMsg at hd
      simp only [String.data_append, List.append_assoc] at hd
      have h1 := List.append_cancel_left hd
      have h2 := List.append_cancel_left h1
      have h3 := congrArg (fun l => List.take 1 (List.drop 3 l)) h2
      have h4 : (['P'] : List Char) = ['A'] := h3
      exact absurd h4 (by decide)
    · rfl
  have hB : (if (pyEndsWith path "/" && path != "/") = true then
        ["Path '" ++ path ++ "': Avoid trailing slashes"]
      else []).count (verbMsg path) = 0 := by
    split
    · apply List.count_eq_zero.mpr
      intro hmem
      have heq := List.mem_singleton.mp hmem
      have hd := congrArg String.data heq
      unfold verbMsg at hd
      simp only [String.data_append, List.append_assoc] at hd
      have h1 := List.append_cancel_left hd
      have h2 := List.append_cancel_left h1
      exact absurd h2 (by decide)
    · rfl
  have hC : ((verbs.filter (fun verb =>
        (splitChar '/' (lowerStr path).data).contains verb.data)).map
          (fun _ => verbMsg path)).count (verbMsg path) =
      (verbs.filter (fun verb =>
        (splitChar '/' (lowerStr path).data).contains verb.data)).length := by
    rw [List.count_eq_length.mpr, List.length_map]
    intro b hb
    obtain ⟨_, _, hbe⟩ := List.mem_map.mp hb
    exact hbe
  rw [hA, hB, hC]
  omega

theorem mapOpt_content (msg : String) (cts : List (String × Val))
    (h : ∀ p ∈ cts, ∃ fs, p.2 = Val.obj fs) :
    mapOpt (fun mv =>
        match pyIn "example" mv.2, pyIn "examples" mv.2 with
        | some hasEx, some hasExs => some (if !hasEx && !hasExs then [msg] else [])
        | _, _ => none) cts =
      some (cts.map (fun p => if lacksExample p.2 then [msg] else [])) := by
  induction cts with
  | nil => rfl
  | cons p t ih =>
    obtain ⟨fs, hfs⟩ := h p (List.mem_cons_self _ _)
    have iht := ih (fun q hq => h q (List.mem_cons_of_mem _ hq))
    simp only [mapOpt, List.map_cons, hfs]
    rw [iht]
    rfl

theorem flatten_map_ite {α : Type} (m : String) (q : α → Bool) (l : List α) :
    (l.map (fun a => if q a then [m] else [])).flatten =
      (l.filter q).map (fun _ => m) := by
  induction l with
  | nil => rfl
  | cons a t ih =>
    simp only [List.map_cons, List.flatten_cons, List.filter_cons]
    cases hq : q a with
    | false =>
      simp only [Bool.false_eq_true, if_false, List.nil_append]
      exact ih
    | true =>
      simp only [if_true, List.singleton_append, List.map_cons]
      rw [ih]

/-- The code's `checkContent`, on a content mapping whose media-type entries
are all objects, produces exactly the warnings described by the spec: one
per entry lacking both `example` and `examples`. -/
theorem checkContent_spec (msg : String) (cts : List (String × Val))
    (hcts : ∀ p ∈ cts, ∃ fs, p.2 = Val.obj fs) :
    checkContent msg (.obj cts) =
      some ((cts.filter (fun p => lacksExample p.2)).map (fun _ => msg)) := by
  unfold checkContent
  simp only [pyItems]
  rw [mapOpt_content msg cts hcts]
  dsimp only
  rw [flatten_map_ite]

theorem mapOpt_responses (method path : String)
    (rs : List (String × List (String × Val)))
    (hrs : ∀ r ∈ rs, ∀ q ∈ r.2, ∃ fs, q.2 = Val.obj fs) :
    mapOpt (fun rv =>
        if pyStartsWith rv.1 "2" then
          match pyGet rv.2 "content" (.obj []) with
          | none => none
          | some content =>
            checkContent (upperStr method ++ " " ++ path ++ ": Response " ++ rv.1 ++ " missing example") content
        else some [])
      (rs.map (fun r => (r.1, Val.obj [("content", .obj r.2)]))) =
    some (rs.map (fun r =>
      if pyStartsWith r.1 "2" then
        (r.2.filter (fun q => lacksExample q.2)).map
          (fun _ => upperStr method ++ " " ++ path ++ ": Response " ++ r.1 ++ " missing example")
      else [])) := by
  induction rs with
  | nil => rfl
  | cons r t ih =>
    have iht := ih (fun r' hr' => hrs r' (List.mem_cons_of_mem _ hr'))
    simp only [List.map_cons, mapOpt]
    cases hs : pyStartsWith r.1 "2" with
    | false =>
      simp only [Bool.false_eq_true, if_false]
      rw [iht]
    | true =>
      simp only [if_true]
      have hget : pyGet (Val.obj [("content", Val.obj r.2)]) "content" (.obj []) =
          some (Val.obj r.2) := rfl
      rw [hget]
      dsimp only
      rw [checkContent_spec _ r.2 (hrs r (List.mem_cons_self _ _))]
      rw [iht]

/-- C8 amended: for an operation under one of the five methods the examples
pass iterates (get, post, put, patch, delete), the pass emits exactly one
warning per request-body media-type entry lacking `example`/`examples` and
one per media-type entry of each response whose status code starts with "2"
lacking them — as computed by the spec-side functions. -/
theorem c8_amended_examples_warnings (method path : String)
    (hm : method ∈ exOperations)
    (cts : List (String × Val)) (rs : List (String × List (String × Val)))
    (hcts : ∀ p ∈ cts, ∃ fs, p.2 = Val.obj fs)
    (hrs : ∀ r ∈ rs, ∀ q ∈ r.2, ∃ fs, q.2 = Val.obj fs) :
    checkExOperation method path (opWithExamples cts rs) =
      some (specRequestWarnings method path cts ++
            specResponseWarnings method path rs) := by
  have h0 : checkExOperation method path (opWithExamples cts rs) =
    (match checkContent (upperStr method ++ " " ++ path ++ ": Request body missing example") (.obj cts) with
     | none => none
     | some w1 =>
       match mapOpt (fun rv =>
           if pyStartsWith rv.1 "2" then
             match pyGet rv.2 "content" (.obj []) with
             | none => none
             | some content =>
               checkContent (upperStr method ++ " " ++ path ++ ": Response " ++ rv.1 ++ " missing example") content
           else some [])
         (rs.map (fun r => (r.1, Val.obj [("content", .obj r.2)]))) with
       | none => none
       | some w2 => some (w1 ++ w2.flatten)) := rfl
  rw [h0, checkContent_spec _ cts hcts, mapOpt_responses method path rs hrs]
  rfl

/-- C8 amended witness: a `get` operation with one bare request-body entry,
one bare 200-response entry and one bare 404-response entry gets exactly the
request warning and the 200 warning. -/
theorem c8_amended_witness :
    checkExOperation "get" "/x" (opWithExamples
        [("application/json", .obj [])]
        [("200", [("application/json", .obj [])]),
         ("404", [("application/json", .obj [])])]) =
      some (specRequestWarnings "get" "/x" [("application/json", .obj [])] ++
            specResponseWarnings "get" "/x"
              [("200", [("application/json", .obj [])]),
               ("404", [("application/json", .obj [])])]) := by
  have h := c8_amended_examples_warnings "get" "/x" (by decide)
    [("application/json", .obj [])]
    [("200", [("application/json", .obj [])]),
     ("404", [("application/json", .obj [])])]
    (by intro p hp; exact ⟨[], by
      rcases List.mem_singleton.mp hp with rfl; rfl⟩)
    (by intro r hr q hq
        rcases List.mem_cons.mp hr with rfl | hr
        · exact ⟨[], by rcases List.mem_singleton.mp hq with rfl; rfl⟩
        · rcases List.mem_singleton.mp hr with rfl
          exact ⟨[], by rcases List.mem_singleton.mp hq with rfl; rfl⟩)
  exact h

/-- C8 counterexample: an operation under `options` (a recognized HTTP
method) with a bare request-body media type and a bare 200-response media
type produces no example warnings at all — the examples pass iterates only
get/post/put/patch/delete. -/
theorem c8_counterexample_options_not_checked :
    validate_examples (.obj [("paths", .obj [("/x", .obj [("options", .obj
      [("requestBody", .obj [("content", .obj [("application/json", .obj [])])]),
       ("responses", .obj [("200", .obj [("content", .obj
         [("application/json", .obj [])])])])])])])]) = some [] ∧
    "options" ∈ operations ∧ "options" ∉ exOperations := by
  refine ⟨by decide, by decide, by decide⟩

end Openapi
